import Mathlib

/-!
Shallow embedding of `ranger/core/linemode.py` (ranger's line-mode
strategy system) and proofs about its specification.

Modelling conventions:
* Python `datetime` values are represented by POSIX timestamps
  (`Int`, whole seconds); the local timezone is modelled as UTC, so
  `datetime.fromtimestamp(ts).date()` corresponds to the epoch day
  `ts.fdiv 86400` and the time of day to `ts.emod 86400`.
* `strftime` is modelled under the C locale: `%b`/`%a` are the English
  three-letter abbreviations, `%-d` is the unpadded day of month,
  `%H`/`%M` are zero-padded to two digits, `%Y` is the unpadded year.
* The ambient call-time context (the wall clock read by
  `datetime.now()` and the behaviour of the spawned `file` process) is
  made explicit as a `World` value passed to every strategy method.
-/

/-- Decimal digit character, `digitChar d` for `d < 10`. -/
def digitChar (d : Nat) : Char := Char.ofNat (48 + d)

/-- Accumulator loop producing the decimal digits of `n` in order;
structural recursion on `fuel` keeps it definitionally reducible, and
any `fuel ≥ n` is enough. -/
def natDecAux (fuel n : Nat) (acc : List Char) : List Char :=
  match fuel with
  | 0 => digitChar (n % 10) :: acc
  | f + 1 =>
    if n < 10 then digitChar n :: acc
    else natDecAux f (n / 10) (digitChar (n % 10) :: acc)

/-- Unpadded decimal rendering of a natural number. -/
def natDec (n : Nat) : String := String.mk (natDecAux n n [])

/-- Unpadded decimal rendering of an integer. -/
def intDec (i : Int) : String :=
  if i < 0 then "-" ++ natDec (-i).toNat else natDec i.toNat

/-- Zero-pad to two digits, the model of strftime `%H`, `%M`, `%m`, `%d`. -/
def pad2 (n : Nat) : String :=
  if n < 10 then "0" ++ natDec n else natDec n

/-- C-locale `%b`: abbreviated month name (months are numbered 1-12). -/
def monthAbbrev : Nat → String
  | 1 => "Jan" | 2 => "Feb" | 3 => "Mar" | 4 => "Apr"
  | 5 => "May" | 6 => "Jun" | 7 => "Jul" | 8 => "Aug"
  | 9 => "Sep" | 10 => "Oct" | 11 => "Nov" | 12 => "Dec"
  | _ => "???"

/-- C-locale `%a`: abbreviated weekday name (0 = Sunday). -/
def weekdayAbbrev : Nat → String
  | 0 => "Sun" | 1 => "Mon" | 2 => "Tue" | 3 => "Wed"
  | 4 => "Thu" | 5 => "Fri" | 6 => "Sat"
  | _ => "???"

/-- Month and day of month from the day-of-era `doe < 146097`
(the era-local part of Howard Hinnant's `civil_from_days`). -/
def civilOfDoe (doe : Nat) : Nat × Nat × Nat :=
  let yoe := (doe - doe / 1460 + doe / 36524 - doe / 146096) / 365
  let doy := doe - (365 * yoe + yoe / 4 - yoe / 100)
  let mp := (5 * doy + 2) / 153
  let d := doy - (153 * mp + 2) / 5 + 1
  let m := if mp < 10 then mp + 3 else mp - 9
  (yoe, m, d)

/-- Proleptic-Gregorian civil date `(year, month, day)` of an epoch day
number (days since 1970-01-01), Howard Hinnant's `civil_from_days`. -/
def civilFromDays (z : Int) : Int × Nat × Nat :=
  let z' := z + 719468
  let era := z' / 146097
  let doe := (z' % 146097).toNat
  let c := civilOfDoe doe
  let y : Int := (c.1 : Int) + era * 400
  (if c.2.1 ≤ 2 then y + 1 else y, c.2.1, c.2.2)

/-- `datetime.fromtimestamp(ts).date()` as an epoch day number. -/
def epochDate (ts : Int) : Int := ts / 86400

/-- Seconds elapsed since local midnight at timestamp `ts`. -/
def secondsOfDay (ts : Int) : Nat := (ts % 86400).toNat

/-- The `(year, month, day)` of `datetime.fromtimestamp(ts)`. -/
def ymdOf (ts : Int) : Int × Nat × Nat := civilFromDays (epochDate ts)

def yearOf (ts : Int) : Int := (ymdOf ts).1

def monthOf (ts : Int) : Nat := (ymdOf ts).2.1

def dayOf (ts : Int) : Nat := (ymdOf ts).2.2

def hourOf (ts : Int) : Nat := secondsOfDay ts / 3600

def minuteOf (ts : Int) : Nat := secondsOfDay ts / 60 % 60

/-- Weekday of the timestamp's date, 0 = Sunday (1970-01-01 was a Thursday). -/
def weekdayOf (ts : Int) : Nat := ((epochDate ts + 4) % 7).toNat

/-- `strftime("%Y-%m-%d %H:%M")`. -/
def fmtYmdHM (ts : Int) : String :=
  intDec (yearOf ts) ++ "-" ++ pad2 (monthOf ts) ++ "-" ++ pad2 (dayOf ts)
    ++ " " ++ pad2 (hourOf ts) ++ ":" ++ pad2 (minuteOf ts)

/-- `strftime("%-d %b %Y")`. -/
def fmtDMonY (ts : Int) : String :=
  natDec (dayOf ts) ++ " " ++ monthAbbrev (monthOf ts) ++ " " ++ intDec (yearOf ts)

/-- `strftime("%-d %b")`. -/
def fmtDMon (ts : Int) : String :=
  natDec (dayOf ts) ++ " " ++ monthAbbrev (monthOf ts)

/-- `strftime("%a")`. -/
def fmtWd (ts : Int) : String := weekdayAbbrev (weekdayOf ts)

/-- `strftime("%H:%M")`. -/
def fmtHM (ts : Int) : String := pad2 (hourOf ts) ++ ":" ++ pad2 (minuteOf ts)

/-- Python `"%11s" % s`: right-justify in an 11-wide field (never truncates). -/
def rjust (w : Nat) (s : String) : String :=
  if s.length < w then String.mk (List.replicate (w - s.length) ' ') ++ s else s

/-- Python `str.strip()`: remove leading and trailing whitespace. -/
def pyStrip (s : String) : String :=
  String.mk (((s.data.dropWhile Char.isWhitespace).reverse.dropWhile
    Char.isWhitespace).reverse)

/-- Exceptions that can escape a strategy method. -/
inductive LException where
  | notImplementedError : LException
  | osError : LException
deriving DecidableEq, Repr

/-- Outcome of one `spawn.check_output(["file", "-Lb", path])` call:
the call returns the captured stdout, raises `CalledProcessError` on a
non-zero exit status, or fails to spawn at all (e.g. command absent). -/
inductive SpawnResult where
  | output (stdout : String)
  | calledProcessError (code : Nat)
  | spawnFailure
deriving Repr

/-- The ambient call-time context of one method invocation: the wall
clock read by `datetime.now()` and the behaviour of the external `file`
process, keyed by the path it is invoked on. -/
structure World where
  now : Int
  fileOutput : String → SpawnResult

/-- The slice of `os.stat` data the module reads. -/
structure Stat where
  st_mtime : Int
deriving DecidableEq, Repr

/-- The slice of ranger's file-object (`fobj`) interface the module
reads; `permission_string` stands for `fobj.get_permission_string()`. -/
structure FileEntry where
  relative_path : String
  path : String
  is_directory : Bool
  size : Nat
  stat : Option Stat
  permission_string : String
  user : String
  group : String
deriving Repr

/-- Sidecar metadata fields; `none` models an absent/None field. -/
structure Metadata where
  title : Option String
  year : Option String
  authors : Option String
deriving DecidableEq, Repr

/-- Python truthiness of an optional string: `None` and `""` are falsy. -/
def truthy : Option String → Bool
  | none => false
  | some s => s != ""

/-- Attribute access where the caller has ensured the field is present;
an absent field reads as the empty string. -/
def optStr (o : Option String) : String := o.getD ""

def DEFAULT_LINEMODE : String := "filename"

def DefaultLinemode.name : String := "filename"

def DefaultLinemode.filetitle (w : World) (fobj : FileEntry) (md : Metadata) : String :=
  fobj.relative_path

def DefaultLinemode.infostring (w : World) (fobj : FileEntry) (md : Metadata) :
    Except LException String :=
  Except.error LException.notImplementedError

def TitleLinemode.name : String := "metatitle"

def TitleLinemode.uses_metadata : Bool := true

def TitleLinemode.required_metadata : List String := ["title"]

def TitleLinemode.filetitle (w : World) (fobj : FileEntry) (md : Metadata) : String :=
  let name := optStr md.title
  if truthy md.year then optStr md.year ++ " - " ++ name
  else name

def TitleLinemode.infostring (w : World) (fobj : FileEntry) (md : Metadata) :
    Except LException String :=
  if truthy md.authors then
    let authorstring := optStr md.authors
    let authorstring :=
      if authorstring.data.contains ',' then
        String.mk (authorstring.data.takeWhile (fun c => c ≠ ','))
      else authorstring
    Except.ok authorstring
  else Except.ok ""

def PermissionsLinemode.name : String := "permissions"

def PermissionsLinemode.filetitle (w : World) (fobj : FileEntry) (md : Metadata) : String :=
  fobj.permission_string ++ " " ++ fobj.user ++ " " ++ fobj.group ++ " " ++ fobj.relative_path

def PermissionsLinemode.infostring (w : World) (fobj : FileEntry) (md : Metadata) :
    Except LException String :=
  Except.ok ""

def FileInfoLinemode.name : String := "fileinfo"

def FileInfoLinemode.filetitle (w : World) (fobj : FileEntry) (md : Metadata) : String :=
  fobj.relative_path

def FileInfoLinemode.infostring (w : World) (fobj : FileEntry) (md : Metadata) :
    Except LException String :=
  if !fobj.is_directory then
    match w.fileOutput fobj.path with
    | SpawnResult.output out => Except.ok (pyStrip out)
    | SpawnResult.calledProcessError _ => Except.ok "unknown"
    | SpawnResult.spawnFailure => Except.error LException.osError
  else Except.error LException.notImplementedError

def MtimeLinemode.name : String := "mtime"

def MtimeLinemode.filetitle (w : World) (fobj : FileEntry) (md : Metadata) : String :=
  fobj.relative_path

def MtimeLinemode.infostring (w : World) (fobj : FileEntry) (md : Metadata) :
    Except LException String :=
  match fobj.stat with
  | none => Except.ok "?"
  | some st => Except.ok (fmtYmdHM st.st_mtime)

def SizeMtimeLinemode.name : String := "sizemtime"

def SizeMtimeLinemode.filetitle (w : World) (fobj : FileEntry) (md : Metadata) : String :=
  fobj.relative_path

def SizeMtimeLinemode.infostring (hr : Nat → String) (w : World) (fobj : FileEntry)
    (md : Metadata) : Except LException String :=
  match fobj.stat with
  | none => Except.ok "?"
  | some st => Except.ok (hr fobj.size ++ " " ++ fmtYmdHM st.st_mtime)

def HumanMtimeLinemode.name : String := "humanmtime"

def HumanMtimeLinemode.filetitle (w : World) (fobj : FileEntry) (md : Metadata) : String :=
  fobj.relative_path

def HumanMtimeLinemode.infostring (w : World) (fobj : FileEntry) (md : Metadata) :
    Except LException String :=
  match fobj.stat with
  | none => Except.ok "?"
  | some st =>
    let file_date := st.st_mtime
    let time_diff : Int := epochDate w.now - epochDate file_date
    if time_diff > 364 then Except.ok (fmtDMonY file_date)
    else if time_diff > 6 then Except.ok (fmtDMon file_date)
    else if time_diff ≥ 1 then Except.ok (fmtWd file_date)
    else Except.ok (fmtHM file_date)

def SizeHumanMtimeLinemode.name : String := "sizehumanmtime"

def SizeHumanMtimeLinemode.filetitle (w : World) (fobj : FileEntry) (md : Metadata) : String :=
  fobj.relative_path

def SizeHumanMtimeLinemode.infostring (hr : Nat → String) (w : World) (fobj : FileEntry)
    (md : Metadata) : Except LException String :=
  match fobj.stat with
  | none => Except.ok "?"
  | some st =>
    let size := hr fobj.size
    let file_date := st.st_mtime
    let time_diff : Int := epochDate w.now - epochDate file_date
    if time_diff > 364 then Except.ok (size ++ " " ++ rjust 11 (fmtDMonY file_date))
    else if time_diff > 6 then Except.ok (size ++ " " ++ rjust 11 (fmtDMon file_date))
    else if time_diff ≥ 1 then Except.ok (size ++ " " ++ rjust 11 (fmtWd file_date))
    else Except.ok (size ++ " " ++ rjust 11 (fmtHM file_date))

/-- One line-mode strategy bundled for the registry. -/
structure Strategy where
  name : String
  uses_metadata : Bool
  required_metadata : List String
  filetitle : World → FileEntry → Metadata → String
  infostring : World → FileEntry → Metadata → Except LException String

def defaultStrategy : Strategy :=
  ⟨DefaultLinemode.name, false, [], DefaultLinemode.filetitle, DefaultLinemode.infostring⟩

def titleStrategy : Strategy :=
  ⟨TitleLinemode.name, TitleLinemode.uses_metadata, TitleLinemode.required_metadata,
    TitleLinemode.filetitle, TitleLinemode.infostring⟩

def permissionsStrategy : Strategy :=
  ⟨PermissionsLinemode.name, false, [], PermissionsLinemode.filetitle,
    PermissionsLinemode.infostring⟩

def fileInfoStrategy : Strategy :=
  ⟨FileInfoLinemode.name, false, [], FileInfoLinemode.filetitle, FileInfoLinemode.infostring⟩

def mtimeStrategy : Strategy :=
  ⟨MtimeLinemode.name, false, [], MtimeLinemode.filetitle, MtimeLinemode.infostring⟩

def sizeMtimeStrategy (hr : Nat → String) : Strategy :=
  ⟨SizeMtimeLinemode.name, false, [], SizeMtimeLinemode.filetitle,
    SizeMtimeLinemode.infostring hr⟩

def humanMtimeStrategy : Strategy :=
  ⟨HumanMtimeLinemode.name, false, [], HumanMtimeLinemode.filetitle,
    HumanMtimeLinemode.infostring⟩

def sizeHumanMtimeStrategy (hr : Nat → String) : Strategy :=
  ⟨SizeHumanMtimeLinemode.name, false, [], SizeHumanMtimeLinemode.filetitle,
    SizeHumanMtimeLinemode.infostring hr⟩

/-- The raised lookup failure for an unregistered mode name. -/
structure UnknownModeError where
  name : String
deriving DecidableEq, Repr

/-- Modelled from the spec: the registry's `register` operation is not
in `src/` (only `DEFAULT_LINEMODE` is); per the spec it "adds a strategy
keyed by its `name`". -/
def register (registry : List Strategy) (s : Strategy) : List Strategy :=
  registry ++ [s]

/-- Modelled from the spec: `lookup(name)` "returns the registered
strategy or fails with `UnknownModeError` if absent". -/
def lookup (registry : List Strategy) (n : String) : Except UnknownModeError Strategy :=
  match registry.find? (fun s => s.name == n) with
  | some s => Except.ok s
  | none => Except.error ⟨n⟩

/-- Modelled from the spec: `default_name()` "returns the constant
default mode identifier"; the constant itself is `DEFAULT_LINEMODE`
from the source. -/
def default_name : String := DEFAULT_LINEMODE

/-- Modelled from the spec: the process-wide registry, populated once
at startup with the module's strategies via `register`. -/
def linemodeRegistry (hr : Nat → String) : List Strategy :=
  List.foldl register []
    [defaultStrategy, titleStrategy, permissionsStrategy, fileInfoStrategy,
      mtimeStrategy, sizeMtimeStrategy hr, humanMtimeStrategy, sizeHumanMtimeStrategy hr]

theorem natDecAux_length_le :
    ∀ fuel n acc k, 1 ≤ k → n < 10 ^ k →
      (natDecAux fuel n acc).length ≤ k + acc.length := by
  intro fuel
  induction fuel with
  | zero =>
    intro n acc k hk _
    simp only [natDecAux, List.length_cons]
    omega
  | succ f ih =>
    intro n acc k hk hn
    simp only [natDecAux]
    split
    · simp only [List.length_cons]
      omega
    · rename_i h10
      have hk2 : 2 ≤ k := by
        by_contra hk1
        have : k = 1 := by omega
        subst this
        simp at hn
        omega
      have hdiv : n / 10 < 10 ^ (k - 1) := by
        rw [Nat.div_lt_iff_lt_mul (by omega)]
        have : 10 ^ (k - 1) * 10 = 10 ^ k := by
          have : k - 1 + 1 = k := by omega
          calc 10 ^ (k - 1) * 10 = 10 ^ (k - 1 + 1) := by ring
          _ = 10 ^ k := by rw [this]
        omega
      have := ih (n / 10) (digitChar (n % 10) :: acc) (k - 1) (by omega) hdiv
      simp only [List.length_cons] at this ⊢
      omega

theorem natDec_length_le (k n : Nat) (hk : 1 ≤ k) (hn : n < 10 ^ k) :
    (natDec n).length ≤ k := by
  have := natDecAux_length_le n n [] k hk hn
  simpa [natDec] using this

theorem pad2_length_le (n : Nat) (h : n ≤ 99) : (pad2 n).length ≤ 2 := by
  unfold pad2
  split
  · rename_i h10
    have h1 : (natDec n).length ≤ 1 := natDec_length_le 1 n (by omega) (by omega)
    rw [String.length_append]
    have h0 : ("0" : String).length = 1 := rfl
    omega
  · exact natDec_length_le 2 n (by omega) (by omega)

theorem intDec_length_le4 (y : Int) (h1 : 1 ≤ y) (h2 : y ≤ 9999) :
    (intDec y).length ≤ 4 := by
  unfold intDec
  rw [if_neg (by omega)]
  exact natDec_length_le 4 y.toNat (by omega) (by omega)

theorem monthAbbrev_length : ∀ m, (monthAbbrev m).length = 3 := by
  intro m
  match m with
  | 0 | 1 | 2 | 3 | 4 | 5 | 6 | 7 | 8 | 9 | 10 | 11 | 12 => rfl
  | n + 13 => rfl

theorem weekdayAbbrev_length : ∀ d, (weekdayAbbrev d).length = 3 := by
  intro d
  match d with
  | 0 | 1 | 2 | 3 | 4 | 5 | 6 => rfl
  | n + 7 => rfl

theorem civilOfDoe_day_le (doe : Nat) : (civilOfDoe doe).2.2 ≤ 31 := by
  unfold civilOfDoe
  dsimp only
  omega

theorem dayOf_le (ts : Int) : dayOf ts ≤ 31 := by
  unfold dayOf ymdOf civilFromDays
  dsimp only
  exact civilOfDoe_day_le _

theorem secondsOfDay_lt (ts : Int) : secondsOfDay ts < 86400 := by
  unfold secondsOfDay
  omega

theorem hourOf_le (ts : Int) : hourOf ts ≤ 23 := by
  have := secondsOfDay_lt ts
  unfold hourOf
  omega

theorem minuteOf_le (ts : Int) : minuteOf ts ≤ 59 := by
  unfold minuteOf
  omega

theorem rjust_length (n : Nat) (s : String) (h : s.length ≤ n) :
    (rjust n s).length = n := by
  unfold rjust
  split
  · rename_i hlt
    rw [String.length_append]
    have hrep : (String.mk (List.replicate (n - s.length) ' ')).length = n - s.length := by
      show (List.replicate (n - s.length) ' ').length = n - s.length
      exact List.length_replicate _ _
    omega
  · omega

theorem fmtDMonY_length_le (ts : Int) (h1 : 1 ≤ yearOf ts) (h2 : yearOf ts ≤ 9999) :
    (fmtDMonY ts).length ≤ 11 := by
  unfold fmtDMonY
  have hd : (natDec (dayOf ts)).length ≤ 2 :=
    natDec_length_le 2 _ (by omega) (by have := dayOf_le ts; omega)
  have hm := monthAbbrev_length (monthOf ts)
  have hy := intDec_length_le4 _ h1 h2
  have hsp : (" " : String).length = 1 := rfl
  simp only [String.length_append]
  omega

theorem fmtDMon_length_le (ts : Int) : (fmtDMon ts).length ≤ 6 := by
  unfold fmtDMon
  have hd : (natDec (dayOf ts)).length ≤ 2 :=
    natDec_length_le 2 _ (by omega) (by have := dayOf_le ts; omega)
  have hm := monthAbbrev_length (monthOf ts)
  have hsp : (" " : String).length = 1 := rfl
  simp only [String.length_append]
  omega

theorem fmtWd_length (ts : Int) : (fmtWd ts).length = 3 := by
  unfold fmtWd
  exact weekdayAbbrev_length _

theorem fmtHM_length_le (ts : Int) : (fmtHM ts).length ≤ 5 := by
  unfold fmtHM
  have hh : (pad2 (hourOf ts)).length ≤ 2 := pad2_length_le _ (by have := hourOf_le ts; omega)
  have hm : (pad2 (minuteOf ts)).length ≤ 2 :=
    pad2_length_le _ (by have := minuteOf_le ts; omega)
  have hco : (":" : String).length = 1 := rfl
  simp only [String.length_append]
  omega

/-- C1: For every file entry whose stat is present,
`HumanMtimeLinemode.infostring` computes the day difference between
today's date and the file's modification date (both reduced to
midnight) and selects the format by these boundaries: a difference
above 364 gives the unpadded day-month-year format, a difference in
7..364 gives day-month, a difference in 1..6 gives the abbreviated
weekday name, and a difference of zero or less (same calendar day or a
future timestamp) gives hours:minutes. -/
theorem humanMtime_infostring_tiering (w : World) (fobj : FileEntry) (md : Metadata)
    (st : Stat) (hstat : fobj.stat = some st) (dd : Int)
    (hdd : dd = epochDate w.now - epochDate st.st_mtime) :
    (364 < dd →
      HumanMtimeLinemode.infostring w fobj md = Except.ok (fmtDMonY st.st_mtime)) ∧
    (6 < dd → dd ≤ 364 →
      HumanMtimeLinemode.infostring w fobj md = Except.ok (fmtDMon st.st_mtime)) ∧
    (1 ≤ dd → dd ≤ 6 →
      HumanMtimeLinemode.infostring w fobj md = Except.ok (fmtWd st.st_mtime)) ∧
    (dd ≤ 0 →
      HumanMtimeLinemode.infostring w fobj md = Except.ok (fmtHM st.st_mtime)) := by
  subst hdd
  simp only [HumanMtimeLinemode.infostring, hstat]
  refine ⟨?_, ?_, ?_, ?_⟩
  · intro h
    rw [if_pos (by omega)]
  · intro h1 h2
    rw [if_neg (by omega), if_pos (by omega)]
  · intro h1 h2
    rw [if_neg (by omega), if_neg (by omega), if_pos (by omega)]
  · intro h
    rw [if_neg (by omega), if_neg (by omega), if_neg (by omega)]

/-- C1 witness: concrete boundary instances around a fixed clock of
2024-06-15 11:45:00 UTC; a file from exactly 365 days earlier gets the
year-qualified format, 364 days earlier gets day-month, 6 and 1 days
earlier get the weekday name, and the same calendar day gets
hours:minutes. -/
theorem humanMtime_infostring_tiering_witness :
    HumanMtimeLinemode.infostring ⟨1718451900, fun _ => SpawnResult.output ""⟩
        ⟨"f", "/f", false, 0, some ⟨1686915900⟩, "-rw-r--r--", "u", "g"⟩
        ⟨none, none, none⟩ = Except.ok "16 Jun 2023" ∧
    HumanMtimeLinemode.infostring ⟨1718451900, fun _ => SpawnResult.output ""⟩
        ⟨"f", "/f", false, 0, some ⟨1687002300⟩, "-rw-r--r--", "u", "g"⟩
        ⟨none, none, none⟩ = Except.ok "17 Jun" ∧
    HumanMtimeLinemode.infostring ⟨1718451900, fun _ => SpawnResult.output ""⟩
        ⟨"f", "/f", false, 0, some ⟨1717933500⟩, "-rw-r--r--", "u", "g"⟩
        ⟨none, none, none⟩ = Except.ok "Sun" ∧
    HumanMtimeLinemode.infostring ⟨1718451900, fun _ => SpawnResult.output ""⟩
        ⟨"f", "/f", false, 0, some ⟨1718365500⟩, "-rw-r--r--", "u", "g"⟩
        ⟨none, none, none⟩ = Except.ok "Fri" ∧
    HumanMtimeLinemode.infostring ⟨1718451900, fun _ => SpawnResult.output ""⟩
        ⟨"f", "/f", false, 0, some ⟨1718448300⟩, "-rw-r--r--", "u", "g"⟩
        ⟨none, none, none⟩ = Except.ok "10:45" := by
  refine ⟨?_, ?_, ?_, ?_, ?_⟩
  · rw [(humanMtime_infostring_tiering ⟨1718451900, fun _ => SpawnResult.output ""⟩
      ⟨"f", "/f", false, 0, some ⟨1686915900⟩, "-rw-r--r--", "u", "g"⟩
      ⟨none, none, none⟩ ⟨1686915900⟩ rfl _ rfl).1 (by decide)]
    rfl
  · rw [(humanMtime_infostring_tiering ⟨1718451900, fun _ => SpawnResult.output ""⟩
      ⟨"f", "/f", false, 0, some ⟨1687002300⟩, "-rw-r--r--", "u", "g"⟩
      ⟨none, none, none⟩ ⟨1687002300⟩ rfl _ rfl).2.1 (by decide) (by decide)]
    rfl
  · rw [(humanMtime_infostring_tiering ⟨1718451900, fun _ => SpawnResult.output ""⟩
      ⟨"f", "/f", false, 0, some ⟨1717933500⟩, "-rw-r--r--", "u", "g"⟩
      ⟨none, none, none⟩ ⟨1717933500⟩ rfl _ rfl).2.2.1 (by decide) (by decide)]
    rfl
  · rw [(humanMtime_infostring_tiering ⟨1718451900, fun _ => SpawnResult.output ""⟩
      ⟨"f", "/f", false, 0, some ⟨1718365500⟩, "-rw-r--r--", "u", "g"⟩
      ⟨none, none, none⟩ ⟨1718365500⟩ rfl _ rfl).2.2.1 (by decide) (by decide)]
    rfl
  · rw [(humanMtime_infostring_tiering ⟨1718451900, fun _ => SpawnResult.output ""⟩
      ⟨"f", "/f", false, 0, some ⟨1718448300⟩, "-rw-r--r--", "u", "g"⟩
      ⟨none, none, none⟩ ⟨1718448300⟩ rfl _ rfl).2.2.2 (by decide)]
    rfl

/-- C2: For every file entry whose stat is present,
`SizeHumanMtimeLinemode.infostring` returns the human-readable size, a
single space, then the date/time string chosen by the same
day-difference tiering as `HumanMtimeLinemode`, right-justified within
an 11-character field; the trailing date/time segment is always exactly
11 characters wide (within Python datetime's year range 1..9999). -/
theorem sizeHumanMtime_infostring_format (hr : Nat → String) (w : World)
    (fobj : FileEntry) (md : Metadata) (st : Stat) (hstat : fobj.stat = some st)
    (hy1 : 1 ≤ yearOf st.st_mtime) (hy2 : yearOf st.st_mtime ≤ 9999) :
    ∃ s, HumanMtimeLinemode.infostring w fobj md = Except.ok s ∧
      SizeHumanMtimeLinemode.infostring hr w fobj md =
        Except.ok (hr fobj.size ++ " " ++ rjust 11 s) ∧
      (rjust 11 s).length = 11 := by
  simp only [HumanMtimeLinemode.infostring, SizeHumanMtimeLinemode.infostring, hstat]
  split_ifs with h1 h2 h3
  · exact ⟨fmtDMonY st.st_mtime, rfl, rfl, rjust_length _ _ (fmtDMonY_length_le _ hy1 hy2)⟩
  · exact ⟨fmtDMon st.st_mtime, rfl, rfl,
      rjust_length _ _ (by have := fmtDMon_length_le st.st_mtime; omega)⟩
  · exact ⟨fmtWd st.st_mtime, rfl, rfl,
      rjust_length _ _ (by have := fmtWd_length st.st_mtime; omega)⟩
  · exact ⟨fmtHM st.st_mtime, rfl, rfl,
      rjust_length _ _ (by have := fmtHM_length_le st.st_mtime; omega)⟩

/-- C2 witness: with the year-qualified date of a file 365 days before
the fixed clock, the info string is the size, one space, and the date
right-justified to 11 characters. -/
theorem sizeHumanMtime_infostring_format_witness :
    ∃ s, HumanMtimeLinemode.infostring ⟨1718451900, fun _ => SpawnResult.output ""⟩
        ⟨"f", "/f", false, 4096, some ⟨1686915900⟩, "-rw-r--r--", "u", "g"⟩
        ⟨none, none, none⟩ = Except.ok s ∧
      SizeHumanMtimeLinemode.infostring (fun _ => "4.0 KiB")
          ⟨1718451900, fun _ => SpawnResult.output ""⟩
          ⟨"f", "/f", false, 4096, some ⟨1686915900⟩, "-rw-r--r--", "u", "g"⟩
          ⟨none, none, none⟩ = Except.ok ("4.0 KiB" ++ " " ++ rjust 11 s) ∧
      (rjust 11 s).length = 11 :=
  sizeHumanMtime_infostring_format (fun _ => "4.0 KiB")
    ⟨1718451900, fun _ => SpawnResult.output ""⟩
    ⟨"f", "/f", false, 4096, some ⟨1686915900⟩, "-rw-r--r--", "u", "g"⟩
    ⟨none, none, none⟩ ⟨1686915900⟩ rfl (by decide) (by decide)

/-- C5: For every non-directory entry, `FileInfoLinemode.infostring`
returns the external classifier's stdout with surrounding whitespace
stripped; a non-zero exit status is downgraded to the literal string
"unknown" instead of propagating; directory entries signal
not-implemented so the caller applies its fallback. -/
theorem fileInfo_infostring_recovery (w : World) (fobj : FileEntry) (md : Metadata) :
    (fobj.is_directory = false →
      (∀ out, w.fileOutput fobj.path = SpawnResult.output out →
        FileInfoLinemode.infostring w fobj md = Except.ok (pyStrip out)) ∧
      (∀ c, w.fileOutput fobj.path = SpawnResult.calledProcessError c →
        FileInfoLinemode.infostring w fobj md = Except.ok "unknown")) ∧
    (fobj.is_directory = true →
      FileInfoLinemode.infostring w fobj md =
        Except.error LException.notImplementedError) := by
  constructor
  · intro hdir
    constructor
    · intro out hout
      simp [FileInfoLinemode.infostring, hdir, hout]
    · intro c hc
      simp [FileInfoLinemode.infostring, hdir, hc]
  · intro hdir
    simp [FileInfoLinemode.infostring, hdir]

/-- C5 witness: exit status 1 yields "unknown"; stdout "ASCII text"
with a trailing newline yields the trimmed "ASCII text"; a directory
entry signals not-implemented. -/
theorem fileInfo_infostring_recovery_witness :
    FileInfoLinemode.infostring ⟨0, fun _ => SpawnResult.calledProcessError 1⟩
        ⟨"f", "/f", false, 0, none, "-rw-r--r--", "u", "g"⟩ ⟨none, none, none⟩ =
      Except.ok "unknown" ∧
    FileInfoLinemode.infostring ⟨0, fun _ => SpawnResult.output "ASCII text\n"⟩
        ⟨"f", "/f", false, 0, none, "-rw-r--r--", "u", "g"⟩ ⟨none, none, none⟩ =
      Except.ok "ASCII text" ∧
    FileInfoLinemode.infostring ⟨0, fun _ => SpawnResult.output "ASCII text\n"⟩
        ⟨"d", "/d", true, 0, none, "drwxr-xr-x", "u", "g"⟩ ⟨none, none, none⟩ =
      Except.error LException.notImplementedError := by
  refine ⟨?_, ?_, ?_⟩
  · exact ((fileInfo_infostring_recovery ⟨0, fun _ => SpawnResult.calledProcessError 1⟩
      ⟨"f", "/f", false, 0, none, "-rw-r--r--", "u", "g"⟩ ⟨none, none, none⟩).1
      rfl).2 1 rfl
  · rw [((fileInfo_infostring_recovery ⟨0, fun _ => SpawnResult.output "ASCII text\n"⟩
      ⟨"f", "/f", false, 0, none, "-rw-r--r--", "u", "g"⟩ ⟨none, none, none⟩).1
      rfl).1 "ASCII text\n" rfl]
    rfl
  · exact (fileInfo_infostring_recovery ⟨0, fun _ => SpawnResult.output "ASCII text\n"⟩
      ⟨"d", "/d", true, 0, none, "drwxr-xr-x", "u", "g"⟩ ⟨none, none, none⟩).2 rfl

/-- C6: For every file entry, `MtimeLinemode.infostring` and
`SizeMtimeLinemode.infostring` return "?" when stat is absent; when
stat is present, Mtime returns the modification time in the zero-padded
24-hour "YYYY-MM-DD HH:MM" format and SizeMtime returns the
human-readable size, a single space, then that same format. -/
theorem mtime_sizeMtime_infostring (hr : Nat → String) (w : World) (fobj : FileEntry)
    (md : Metadata) :
    (fobj.stat = none →
      MtimeLinemode.infostring w fobj md = Except.ok "?" ∧
      SizeMtimeLinemode.infostring hr w fobj md = Except.ok "?") ∧
    (∀ st, fobj.stat = some st →
      MtimeLinemode.infostring w fobj md = Except.ok (fmtYmdHM st.st_mtime) ∧
      SizeMtimeLinemode.infostring hr w fobj md =
        Except.ok (hr fobj.size ++ " " ++ fmtYmdHM st.st_mtime)) := by
  constructor
  · intro h
    constructor
    · simp [MtimeLinemode.infostring, h]
    · simp [SizeMtimeLinemode.infostring, h]
  · intro st h
    constructor
    · simp [MtimeLinemode.infostring, h]
    · simp [SizeMtimeLinemode.infostring, h]

/-- C6 witness: an entry with absent stat yields "?" for both modes; an
entry modified 2024-06-15 11:45:00 UTC yields "2024-06-15 11:45" and
"4.0 KiB 2024-06-15 11:45". -/
theorem mtime_sizeMtime_infostring_witness :
    MtimeLinemode.infostring ⟨0, fun _ => SpawnResult.output ""⟩
        ⟨"f", "/f", false, 4096, none, "-rw-r--r--", "u", "g"⟩ ⟨none, none, none⟩ =
      Except.ok "?" ∧
    MtimeLinemode.infostring ⟨0, fun _ => SpawnResult.output ""⟩
        ⟨"f", "/f", false, 4096, some ⟨1718451900⟩, "-rw-r--r--", "u", "g"⟩
        ⟨none, none, none⟩ = Except.ok "2024-06-15 11:45" ∧
    SizeMtimeLinemode.infostring (fun _ => "4.0 KiB") ⟨0, fun _ => SpawnResult.output ""⟩
        ⟨"f", "/f", false, 4096, some ⟨1718451900⟩, "-rw-r--r--", "u", "g"⟩
        ⟨none, none, none⟩ = Except.ok "4.0 KiB 2024-06-15 11:45" := by
  refine ⟨?_, ?_, ?_⟩
  · exact ((mtime_sizeMtime_infostring (fun _ => "4.0 KiB")
      ⟨0, fun _ => SpawnResult.output ""⟩
      ⟨"f", "/f", false, 4096, none, "-rw-r--r--", "u", "g"⟩ ⟨none, none, none⟩).1 rfl).1
  · rw [((mtime_sizeMtime_infostring (fun _ => "4.0 KiB")
      ⟨0, fun _ => SpawnResult.output ""⟩
      ⟨"f", "/f", false, 4096, some ⟨1718451900⟩, "-rw-r--r--", "u", "g"⟩
      ⟨none, none, none⟩).2 ⟨1718451900⟩ rfl).1]
    rfl
  · rw [((mtime_sizeMtime_infostring (fun _ => "4.0 KiB")
      ⟨0, fun _ => SpawnResult.output ""⟩
      ⟨"f", "/f", false, 4096, some ⟨1718451900⟩, "-rw-r--r--", "u", "g"⟩
      ⟨none, none, none⟩).2 ⟨1718451900⟩ rfl).2]
    rfl

/-- C10: For every non-directory entry, `FileInfoLinemode.infostring`
catches only the non-zero-exit failure of the spawned classifier; any
other failure of spawning the external process (such as the command
being absent) propagates to the caller instead of being downgraded to
"unknown". -/
theorem fileInfo_spawnFailure_propagates (w : World) (fobj : FileEntry) (md : Metadata)
    (hdir : fobj.is_directory = false)
    (hsp : w.fileOutput fobj.path = SpawnResult.spawnFailure) :
    FileInfoLinemode.infostring w fobj md = Except.error LException.osError := by
  simp [FileInfoLinemode.infostring, hdir, hsp]

/-- C10 witness: a concrete non-directory entry whose classifier call
fails to spawn propagates the failure. -/
theorem fileInfo_spawnFailure_propagates_witness :
    FileInfoLinemode.infostring ⟨0, fun _ => SpawnResult.spawnFailure⟩
        ⟨"f", "/f", false, 0, none, "-rw-r--r--", "u", "g"⟩ ⟨none, none, none⟩ =
      Except.error LException.osError :=
  fileInfo_spawnFailure_propagates ⟨0, fun _ => SpawnResult.spawnFailure⟩
    ⟨"f", "/f", false, 0, none, "-rw-r--r--", "u", "g"⟩ ⟨none, none, none⟩ rfl rfl

/-- C3 counterexample: contrary to the claim that File-Info is the only
strategy whose output can differ across invocations with identical
entry and metadata, `HumanMtimeLinemode.infostring` reads the wall
clock, so the same entry and metadata yield different strings at two
different call times. -/
theorem humanMtime_clock_dependence_cex :
    HumanMtimeLinemode.infostring ⟨0, fun _ => SpawnResult.output ""⟩
        ⟨"f", "/f", false, 0, some ⟨0⟩, "-rw-r--r--", "u", "g"⟩ ⟨none, none, none⟩ ≠
      HumanMtimeLinemode.infostring ⟨34560000, fun _ => SpawnResult.output ""⟩
        ⟨"f", "/f", false, 0, some ⟨0⟩, "-rw-r--r--", "u", "g"⟩ ⟨none, none, none⟩ := by
  intro h
  have h2 : ("00:00" : String) = "1 Jan 1970" := Except.ok.inj h
  exact absurd h2 (by decide)

/-- C3 (amended): the Default, Title, Permissions, Mtime and SizeMtime
strategies, and every strategy's filetitle, are deterministic functions
of the file entry and metadata alone: two invocations in different
call-time contexts return identical results. HumanMtime and
SizeHumanMtime infostrings additionally depend on the wall clock, and
File-Info's on the external process behaviour at call time. -/
theorem strategies_stateless_deterministic (hr : Nat → String) (w1 w2 : World)
    (fobj : FileEntry) (md : Metadata) :
    DefaultLinemode.filetitle w1 fobj md = DefaultLinemode.filetitle w2 fobj md ∧
    TitleLinemode.filetitle w1 fobj md = TitleLinemode.filetitle w2 fobj md ∧
    PermissionsLinemode.filetitle w1 fobj md = PermissionsLinemode.filetitle w2 fobj md ∧
    FileInfoLinemode.filetitle w1 fobj md = FileInfoLinemode.filetitle w2 fobj md ∧
    MtimeLinemode.filetitle w1 fobj md = MtimeLinemode.filetitle w2 fobj md ∧
    SizeMtimeLinemode.filetitle w1 fobj md = SizeMtimeLinemode.filetitle w2 fobj md ∧
    HumanMtimeLinemode.filetitle w1 fobj md = HumanMtimeLinemode.filetitle w2 fobj md ∧
    SizeHumanMtimeLinemode.filetitle w1 fobj md =
      SizeHumanMtimeLinemode.filetitle w2 fobj md ∧
    DefaultLinemode.infostring w1 fobj md = DefaultLinemode.infostring w2 fobj md ∧
    TitleLinemode.infostring w1 fobj md = TitleLinemode.infostring w2 fobj md ∧
    PermissionsLinemode.infostring w1 fobj md = PermissionsLinemode.infostring w2 fobj md ∧
    MtimeLinemode.infostring w1 fobj md = MtimeLinemode.infostring w2 fobj md ∧
    SizeMtimeLinemode.infostring hr w1 fobj md =
      SizeMtimeLinemode.infostring hr w2 fobj md :=
  ⟨rfl, rfl, rfl, rfl, rfl, rfl, rfl, rfl, rfl, rfl, rfl, rfl, rfl⟩

/-- C7: For every metadata value with a present title,
`TitleLinemode.filetitle` returns the year, " - ", then the title when
the year is present and non-empty, and the title alone otherwise. -/
theorem title_filetitle_with_year (w : World) (fobj : FileEntry) (md : Metadata)
    (t : String) (ht : md.title = some t) :
    (∀ y, md.year = some y → y ≠ "" →
      TitleLinemode.filetitle w fobj md = y ++ " - " ++ t) ∧
    (truthy md.year = false → TitleLinemode.filetitle w fobj md = t) := by
  constructor
  · intro y hy hne
    simp [TitleLinemode.filetitle, truthy, hy, hne, optStr, ht]
  · intro hf
    simp [TitleLinemode.filetitle, hf, optStr, ht]

/-- C7 witness: title "Inception" with year "2010" gives
"2010 - Inception"; with no year it gives "Inception". -/
theorem title_filetitle_with_year_witness :
    TitleLinemode.filetitle ⟨0, fun _ => SpawnResult.output ""⟩
        ⟨"f", "/f", false, 0, none, "-rw-r--r--", "u", "g"⟩
        ⟨some "Inception", some "2010", none⟩ = "2010 - Inception" ∧
    TitleLinemode.filetitle ⟨0, fun _ => SpawnResult.output ""⟩
        ⟨"f", "/f", false, 0, none, "-rw-r--r--", "u", "g"⟩
        ⟨some "Inception", none, none⟩ = "Inception" := by
  constructor
  · exact (title_filetitle_with_year ⟨0, fun _ => SpawnResult.output ""⟩
      ⟨"f", "/f", false, 0, none, "-rw-r--r--", "u", "g"⟩
      ⟨some "Inception", some "2010", none⟩ "Inception" rfl).1 "2010" rfl (by decide)
  · exact (title_filetitle_with_year ⟨0, fun _ => SpawnResult.output ""⟩
      ⟨"f", "/f", false, 0, none, "-rw-r--r--", "u", "g"⟩
      ⟨some "Inception", none, none⟩ "Inception" rfl).2 rfl

/-- C8: For every metadata value, `TitleLinemode.infostring` returns
the authors string truncated at (and excluding) the first comma when
authors is present and contains a comma, the full authors string when
it is present without a comma, and the empty string when authors is
absent; the result is always an implemented string, never the
not-implemented signal. -/
theorem title_infostring_first_author (w : World) (fobj : FileEntry) (md : Metadata) :
    (∀ a, md.authors = some a → a ≠ "" →
      TitleLinemode.infostring w fobj md =
        Except.ok (if a.data.contains ',' then
          String.mk (a.data.takeWhile (fun c => c ≠ ',')) else a)) ∧
    (md.authors = none → TitleLinemode.infostring w fobj md = Except.ok "") ∧
    (∃ s, TitleLinemode.infostring w fobj md = Except.ok s) := by
  refine ⟨?_, ?_, ?_⟩
  · intro a ha hne
    simp only [TitleLinemode.infostring, truthy, ha, optStr, Option.getD_some]
    rw [if_pos (by simp [hne])]
  · intro h
    simp [TitleLinemode.infostring, truthy, h]
  · unfold TitleLinemode.infostring
    split_ifs
    · exact ⟨_, rfl⟩
    · exact ⟨_, rfl⟩

/-- C8 witness: authors "Nolan, Various" give "Nolan", authors "Nolan"
give "Nolan", absent authors give the empty string. -/
theorem title_infostring_first_author_witness :
    TitleLinemode.infostring ⟨0, fun _ => SpawnResult.output ""⟩
        ⟨"f", "/f", false, 0, none, "-rw-r--r--", "u", "g"⟩
        ⟨some "Inception", none, some "Nolan, Various"⟩ = Except.ok "Nolan" ∧
    TitleLinemode.infostring ⟨0, fun _ => SpawnResult.output ""⟩
        ⟨"f", "/f", false, 0, none, "-rw-r--r--", "u", "g"⟩
        ⟨some "Inception", none, some "Nolan"⟩ = Except.ok "Nolan" ∧
    TitleLinemode.infostring ⟨0, fun _ => SpawnResult.output ""⟩
        ⟨"f", "/f", false, 0, none, "-rw-r--r--", "u", "g"⟩
        ⟨some "Inception", none, none⟩ = Except.ok "" := by
  refine ⟨?_, ?_, ?_⟩
  · rw [(title_infostring_first_author ⟨0, fun _ => SpawnResult.output ""⟩
      ⟨"f", "/f", false, 0, none, "-rw-r--r--", "u", "g"⟩
      ⟨some "Inception", none, some "Nolan, Various"⟩).1 "Nolan, Various" rfl (by decide)]
    rfl
  · rw [(title_infostring_first_author ⟨0, fun _ => SpawnResult.output ""⟩
      ⟨"f", "/f", false, 0, none, "-rw-r--r--", "u", "g"⟩
      ⟨some "Inception", none, some "Nolan"⟩).1 "Nolan" rfl (by decide)]
    rfl
  · exact (title_infostring_first_author ⟨0, fun _ => SpawnResult.output ""⟩
      ⟨"f", "/f", false, 0, none, "-rw-r--r--", "u", "g"⟩
      ⟨some "Inception", none, none⟩).2.1 rfl

/-- C9: For every file entry and metadata, the Default strategy (name
"filename") returns the entry's relative path unmodified from
filetitle, and its infostring signals not-implemented for every input,
so the caller always supplies its own fallback rendering. -/
theorem default_strategy_contract :
    ∀ (w : World) (fobj : FileEntry) (md : Metadata),
      DefaultLinemode.filetitle w fobj md = fobj.relative_path ∧
      DefaultLinemode.infostring w fobj md = Except.error LException.notImplementedError ∧
      DefaultLinemode.name = "filename" :=
  fun _ _ _ => ⟨rfl, rfl, rfl⟩

/-- C4: registry lookup returns the registered strategy for every
registered name and fails with UnknownModeError for every unregistered
name (e.g. "nonexistent"); default_name is the constant "filename",
and looking up "filename" always succeeds. -/
theorem registry_lookup_contract (hr : Nat → String) :
    default_name = "filename" ∧
    lookup (linemodeRegistry hr) "filename" = Except.ok defaultStrategy ∧
    (∀ s, s ∈ linemodeRegistry hr →
      lookup (linemodeRegistry hr) s.name = Except.ok s) ∧
    (∀ n, (∀ s, s ∈ linemodeRegistry hr → s.name ≠ n) →
      lookup (linemodeRegistry hr) n = Except.error ⟨n⟩) ∧
    lookup (linemodeRegistry hr) "nonexistent" = Except.error ⟨"nonexistent"⟩ := by
  refine ⟨rfl, rfl, ?_, ?_, rfl⟩
  · intro s hs
    have hreg : linemodeRegistry hr =
        [defaultStrategy, titleStrategy, permissionsStrategy, fileInfoStrategy,
          mtimeStrategy, sizeMtimeStrategy hr, humanMtimeStrategy,
          sizeHumanMtimeStrategy hr] := rfl
    rw [hreg] at hs
    simp only [List.mem_cons, List.not_mem_nil, or_false] at hs
    rcases hs with rfl | rfl | rfl | rfl | rfl | rfl | rfl | rfl <;> rfl
  · intro n h
    have hnone : (linemodeRegistry hr).find? (fun s => s.name == n) = none := by
      rw [List.find?_eq_none]
      intro s hs hbe
      exact h s hs (by simpa using hbe)
    simp [lookup, hnone]

/-- C4 witness: with a concrete humanizer, lookup of "metatitle"
returns the Title strategy and lookup of "nonexistent" fails. -/
theorem registry_lookup_contract_witness :
    default_name = "filename" ∧
    lookup (linemodeRegistry (fun _ => "")) "metatitle" = Except.ok titleStrategy ∧
    lookup (linemodeRegistry (fun _ => "")) "nonexistent" =
      Except.error ⟨"nonexistent"⟩ := by
  refine ⟨(registry_lookup_contract (fun _ => "")).1, ?_,
    (registry_lookup_contract (fun _ => "")).2.2.2.2⟩
  exact (registry_lookup_contract (fun _ => "")).2.2.1 titleStrategy
    (by simp [linemodeRegistry, register])
